import Mathlib

/-!
Verification of the MCP Connector Awareness Engine core: a shallow
embedding, in Lean 4, of the calibration model (src/calibrator.ts,
src/types.ts), the enforcement pipeline (src/enforcer.ts), the snapshot
store (src/state-manager.ts) and the health monitor, together with
theorems about the behaviour of those functions.

JavaScript values that flow through the dynamic parameter bags are
modelled by the inductive `Value` (undefined, null, booleans, numbers,
strings, arrays, objects); JS truthiness is the function `truthy`;
member access on a possibly-non-object value is `jsField` (yielding
`Value.undefined` exactly where JS yields undefined).  Fallible external
operations (connector probes, file writes) are modelled as
`Except String` inputs to the functions that consume them, mirroring
the try/catch structure of the source.
-/

/-- A JavaScript runtime value, as stored in dynamic parameter bags and
calibration snapshots.  Objects keep their fields as an ordered
association list, matching JS property insertion order. -/
inductive Value where
  | undefined : Value
  | null : Value
  | bool : Bool → Value
  | num : Int → Value
  | str : String → Value
  | arr : List Value → Value
  | obj : List (String × Value) → Value

mutual

def valueDecEq : (a b : Value) → Decidable (a = b)
  | .undefined, .undefined => isTrue rfl
  | .null, .null => isTrue rfl
  | .bool a, .bool b =>
    if h : a = b then isTrue (by rw [h]) else isFalse (fun hh => h (Value.bool.inj hh))
  | .num a, .num b =>
    if h : a = b then isTrue (by rw [h]) else isFalse (fun hh => h (Value.num.inj hh))
  | .str a, .str b =>
    if h : a = b then isTrue (by rw [h]) else isFalse (fun hh => h (Value.str.inj hh))
  | .arr a, .arr b =>
    match valueListDecEq a b with
    | isTrue h => isTrue (by rw [h])
    | isFalse h => isFalse (fun hh => h (Value.arr.inj hh))
  | .obj a, .obj b =>
    match valueFieldsDecEq a b with
    | isTrue h => isTrue (by rw [h])
    | isFalse h => isFalse (fun hh => h (Value.obj.inj hh))
  | .undefined, .null | .undefined, .bool _ | .undefined, .num _ | .undefined, .str _ | .undefined, .arr _ | .undefined, .obj _
  | .null, .undefined | .null, .bool _ | .null, .num _ | .null, .str _ | .null, .arr _ | .null, .obj _
  | .bool _, .undefined | .bool _, .null | .bool _, .num _ | .bool _, .str _ | .bool _, .arr _ | .bool _, .obj _
  | .num _, .undefined | .num _, .null | .num _, .bool _ | .num _, .str _ | .num _, .arr _ | .num _, .obj _
  | .str _, .undefined | .str _, .null | .str _, .bool _ | .str _, .num _ | .str _, .arr _ | .str _, .obj _
  | .arr _, .undefined | .arr _, .null | .arr _, .bool _ | .arr _, .num _ | .arr _, .str _ | .arr _, .obj _
  | .obj _, .undefined | .obj _, .null | .obj _, .bool _ | .obj _, .num _ | .obj _, .str _ | .obj _, .arr _ =>
    isFalse (by intro hh; exact Value.noConfusion hh)

def valueListDecEq : (a b : List Value) → Decidable (a = b)
  | [], [] => isTrue rfl
  | [], _ :: _ => isFalse (by intro hh; exact List.noConfusion hh)
  | _ :: _, [] => isFalse (by intro hh; exact List.noConfusion hh)
  | x :: xs, y :: ys =>
    match valueDecEq x y, valueListDecEq xs ys with
    | isTrue h1, isTrue h2 => isTrue (by rw [h1, h2])
    | isFalse h1, _ => isFalse (fun hh => h1 (List.cons.inj hh).1)
    | isTrue _, isFalse h2 => isFalse (fun hh => h2 (List.cons.inj hh).2)

def valueFieldsDecEq : (a b : List (String × Value)) → Decidable (a = b)
  | [], [] => isTrue rfl
  | [], _ :: _ => isFalse (by intro hh; exact List.noConfusion hh)
  | _ :: _, [] => isFalse (by intro hh; exact List.noConfusion hh)
  | (k1, v1) :: xs, (k2, v2) :: ys =>
    match String.decEq k1 k2, valueDecEq v1 v2, valueFieldsDecEq xs ys with
    | isTrue hk, isTrue hv, isTrue h2 => isTrue (by rw [hk, hv, h2])
    | isFalse hk, _, _ => isFalse (fun hh => hk (congrArg Prod.fst (List.cons.inj hh).1))
    | isTrue _, isFalse hv, _ => isFalse (fun hh => hv (congrArg Prod.snd (List.cons.inj hh).1))
    | isTrue _, isTrue _, isFalse h2 => isFalse (fun hh => h2 (List.cons.inj hh).2)

end

instance : DecidableEq Value := valueDecEq

/-- JavaScript truthiness of a `Value`: undefined, null, false, 0 and the
empty string are falsy; every array and object is truthy. -/
def truthy : Value → Bool
  | .undefined => false
  | .null => false
  | .bool b => b
  | .num n => n != 0
  | .str s => s != ""
  | .arr _ => true
  | .obj _ => true

/-- JS member access `v.k`: the named field of an object, `undefined` on a
missing field or a non-object (member access on the primitives the
enforcer reaches it with yields undefined in JS). -/
def jsField (v : Value) (k : String) : Value :=
  match v with
  | .obj fs =>
    match fs.find? (fun p => p.1 == k) with
    | some p => p.2
    | none => .undefined
  | _ => .undefined

/-- A dynamic parameter bag (`params: any` in the source): an ordered
association list of property names to values. -/
abbrev Params := List (String × Value)

/-- JS property read `params.k` as a `Value` (undefined when absent). -/
def getParam (ps : Params) (k : String) : Value :=
  match ps.find? (fun p => p.1 == k) with
  | some p => p.2
  | none => .undefined

/-- Truthiness of `params.k`, the test `params.k` / `!params.k` performs. -/
def truthyParam (ps : Params) (k : String) : Bool :=
  truthy (getParam ps k)

/-- JS property assignment `params.k = v`: overwrites an existing property
in place, otherwise appends it (JS insertion order). -/
def setParam (ps : Params) (k : String) (v : Value) : Params :=
  if (ps.find? (fun p => p.1 == k)).isSome then
    ps.map (fun p => if p.1 == k then (k, v) else p)
  else
    ps ++ [(k, v)]

/-- `Object.assign(target, source)`: every property of the source written
into the target in order. -/
def mergeParams (target source : Params) : Params :=
  source.foldl (fun acc p => setParam acc p.1 p.2) target

def charsHasPref : List Char → List Char → Bool
  | _, [] => true
  | [], _ :: _ => false
  | c :: cs, p :: ps => c == p && charsHasPref cs ps

def charsHasSub (pat : List Char) : List Char → Bool
  | [] => charsHasPref [] pat
  | c :: cs => charsHasPref (c :: cs) pat || charsHasSub pat cs

/-- `s.startsWith(pat)` on strings, via their character lists. -/
def strStarts (s pat : String) : Bool :=
  charsHasPref s.toList pat.toList

/-- `s.includes(pat)` on strings: `pat` occurs contiguously in `s`. -/
def strContains (s pat : String) : Bool :=
  charsHasSub pat.toList s.toList

/-- The `status` union of `ConnectorStatus` in src/types.ts. -/
inductive CalStatus where
  | authenticated : CalStatus
  | failed : CalStatus
  | pending : CalStatus
deriving DecidableEq

/-- `ConnectorStatus` from src/types.ts: per-connector calibration result.
The connector-specific identity facts (`user?`, `workspace?`, `team?`,
`stats?`, `bot?`) are optional JS values; `error?` an optional string. -/
structure ConnectorStatus where
  status : CalStatus
  user : Option Value
  workspace : Option Value
  team : Option Value
  stats : Option Value
  bot : Option Value
  error : Option String
  last_verified : String
deriving DecidableEq

/-- The `connectors` object of `CalibrationState` (src/types.ts): four
optional per-connector entries. -/
structure Connectors where
  asana : Option ConnectorStatus
  linear : Option ConnectorStatus
  github : Option ConnectorStatus
  notion : Option ConnectorStatus
deriving DecidableEq

/-- `CalibrationState` from src/types.ts. -/
structure CalibrationState where
  timestamp : String
  connectors : Connectors
deriving DecidableEq

/-- `ToolCall` from src/types.ts: a requested invocation. -/
structure ToolCall where
  tool : String
  params : Params
deriving DecidableEq

/-- `EnforcementResult` from src/types.ts.  The two optional fields are
`none` exactly when the source never assigns them. -/
structure EnforcementResult where
  original : ToolCall
  enhanced : ToolCall
  modifications : List String
  enforce_pagination : Option Bool
  chain_operations : Option (List ToolCall)
deriving DecidableEq

/-- `state?.connectors?.asana?.workspace` as the enforcer reads it from a
loaded snapshot: the chained optional accesses collapse a missing link to
undefined. -/
def asanaWorkspaceOf : Option CalibrationState → Value
  | none => .undefined
  | some st =>
    match st.connectors.asana with
    | none => .undefined
    | some cs =>
      match cs.workspace with
      | none => .undefined
      | some v => v

/-- `state?.connectors?.linear?.team` as read by the enforcer. -/
def linearTeamOf : Option CalibrationState → Value
  | none => .undefined
  | some st =>
    match st.connectors.linear with
    | none => .undefined
    | some cs =>
      match cs.team with
      | none => .undefined
      | some v => v

/-- `state?.connectors?.notion?.workspace` as read by the enforcer. -/
def notionWorkspaceOf : Option CalibrationState → Value
  | none => .undefined
  | some st =>
    match st.connectors.notion with
    | none => .undefined
    | some cs =>
      match cs.workspace with
      | none => .undefined
      | some v => v

/-- `state?.connectors?.github?.user` as read by the enforcer. -/
def githubUserOf : Option CalibrationState → Value
  | none => .undefined
  | some st =>
    match st.connectors.github with
    | none => .undefined
    | some cs =>
      match cs.user with
      | none => .undefined
      | some v => v

/-- The Asana branch of `injectIdentifiers` (src/enforcer.ts lines 62-65):
inject `workspace` when the tool starts with `asana`, the parameter is
absent or falsy, and the snapshot holds a truthy Asana workspace. -/
def injectAsana (tool : String) (pm : Params × List String)
    (s : Option CalibrationState) : Params × List String :=
  if strStarts tool "asana" && !(truthyParam pm.1 "workspace")
      && truthy (asanaWorkspaceOf s) then
    (setParam pm.1 "workspace" (jsField (asanaWorkspaceOf s) "gid"),
     pm.2 ++ ["Injected Asana workspace ID"])
  else pm

/-- The Linear branch of `injectIdentifiers` (lines 68-71). -/
def injectLinear (tool : String) (pm : Params × List String)
    (s : Option CalibrationState) : Params × List String :=
  if strStarts tool "linear" && !(truthyParam pm.1 "teamId")
      && truthy (linearTeamOf s) then
    (setParam pm.1 "teamId" (jsField (linearTeamOf s) "id"),
     pm.2 ++ ["Injected Linear team ID"])
  else pm

/-- The Notion branch of `injectIdentifiers` (lines 74-77). -/
def injectNotion (tool : String) (pm : Params × List String)
    (s : Option CalibrationState) : Params × List String :=
  if strStarts tool "notion" && !(truthyParam pm.1 "workspace_id")
      && truthy (notionWorkspaceOf s) then
    (setParam pm.1 "workspace_id" (jsField (notionWorkspaceOf s) "id"),
     pm.2 ++ ["Injected Notion workspace ID"])
  else pm

/-- The GitHub branch of `injectIdentifiers` (lines 80-83). -/
def injectGitHub (tool : String) (pm : Params × List String)
    (s : Option CalibrationState) : Params × List String :=
  if strStarts tool "github" && !(truthyParam pm.1 "owner")
      && truthy (githubUserOf s) then
    (setParam pm.1 "owner" (jsField (githubUserOf s) "login"),
     pm.2 ++ ["Injected GitHub owner"])
  else pm

/-- `injectIdentifiers` (src/enforcer.ts lines 58-84): the four connector
branches run in declaration order over the one shared params object,
appending one modification string per injection. -/
def injectIdentifiers (tool : String) (params : Params)
    (s : Option CalibrationState) : Params × List String :=
  injectGitHub tool (injectNotion tool (injectLinear tool (injectAsana tool (params, []) s) s) s) s

/-- `hasNameInsteadOfId` (lines 105-112): a human-readable name is present
while the corresponding id field is missing. -/
def hasNameInsteadOfId (params : Params) : Bool :=
  (truthyParam params "name" && !(truthyParam params "id")
    && !(truthyParam params "gid") && !(truthyParam params "teamId"))
  || (truthyParam params "teamName" && !(truthyParam params "teamId"))
  || (truthyParam params "projectName" && !(truthyParam params "projectId"))

/-- `searchForId` (lines 117-122): the lookup is not wired to a real MCP
call in this repository and always returns null. -/
def searchForId (_tool : String) (_params : Params) : Option Params :=
  none

/-- `resolveIdentifiers` (lines 89-100): when a name stands in for an id,
attempt resolution; merge the resolved fields additively on success and
record a modification, leave the params untouched on a null result. -/
def resolveIdentifiers (tool : String) (params : Params) : Params × List String :=
  if hasNameInsteadOfId params then
    match searchForId tool params with
    | some resolved => (mergeParams params resolved, ["Resolved name to ID"])
    | none => (params, [])
  else (params, [])

/-- The fixed fragment list of `requiresPagination` (lines 128-132). -/
def paginationTools : List String :=
  ["list_tasks", "list_projects", "list_issues", "get_issues",
   "list_pull_requests", "list_commits", "search_",
   "get_comments", "list_cycles"]

/-- `requiresPagination` (lines 127-135): the tool name contains one of
the configured list/search fragments. -/
def requiresPagination (tool : String) : Bool :=
  paginationTools.any (fun pattern => strContains tool pattern)

/-- The fixed fragment list of `requiresChaining` (lines 141-143). -/
def chainingPatterns : List String :=
  ["create_issue", "create_task", "create_project"]

/-- `requiresChaining` (lines 140-146). -/
def requiresChaining (tool : String) : Bool :=
  chainingPatterns.any (fun pattern => strContains tool pattern)

/-- `buildOperationChain` (lines 151-164): the chain starts with the call
it is given; a `create_issue` call with a truthy `labels` parameter gets a
follow-up `add_labels` call carrying that labels value. -/
def buildOperationChain (call : ToolCall) : List ToolCall :=
  if strContains call.tool "create_issue" && truthyParam call.params "labels" then
    [call, ⟨"add_labels", [("labels", getParam call.params "labels")]⟩]
  else
    [call]

/-- `enforce` (src/enforcer.ts lines 21-53).  The source builds
`enhanced: { ...toolCall }`, a shallow copy: `enhanced.params` is the very
same object as `toolCall.params` (and `result.original` is `toolCall`
itself), so the in-place property writes of rule 1 and rule 2 are seen
through `original`, `enhanced` and the `toolCall` reference alike.  The
embedding renders this aliasing by giving `original`, `enhanced` and the
call handed to rule 3/rule 4 helpers the one final params value. -/
def enforce (call : ToolCall) (state : Option CalibrationState) : EnforcementResult :=
  let inj := injectIdentifiers call.tool call.params state
  let res := resolveIdentifiers call.tool inj.1
  let finalParams := res.1
  let sharedCall : ToolCall := ⟨call.tool, finalParams⟩
  let pag := requiresPagination call.tool
  let chainQ := requiresChaining call.tool
  let mods :=
    (inj.2 ++ res.2)
      ++ (if pag then ["Pagination enforcement enabled"] else [])
      ++ (if chainQ then ["Operation chaining configured"] else [])
  { original := sharedCall
    enhanced := sharedCall
    modifications := mods
    enforce_pagination := if pag then some true else none
    chain_operations := if chainQ then some (buildOperationChain sharedCall) else none }

/-- `maxPaginationAttempts` (src/enforcer.ts line 11). -/
def maxPaginationAttempts : Nat := 100

/-- `maxChainDepth` (src/enforcer.ts line 12). -/
def maxChainDepth : Nat := 5

/-- The Asana identity the probe reads (`getCurrentUser`). -/
structure AsanaUser where
  name : String
  email : String
  gid : String
deriving DecidableEq

/-- One Asana workspace from `listWorkspaces`. -/
structure AsanaWorkspace where
  name : String
  gid : String
  is_organization : Bool
deriving DecidableEq

/-- The Linear identity the probe reads (`getCurrentUser`). -/
structure LinearUser where
  name : String
  email : String
  id : String
  admin : Bool
deriving DecidableEq

/-- One Linear team from `getTeams`. -/
structure LinearTeam where
  name : String
  key : String
  id : String
deriving DecidableEq

/-- The GitHub identity the probe reads (`getAuthenticatedUser`). -/
structure GitHubUser where
  login : String
  email : String
  id : Int
  public_repos : Int
  total_private_repos : Int
deriving DecidableEq

/-- One repository from `listRepositories` (listed but otherwise unused
by the probe; its failure alone can fail the GitHub probe). -/
structure GitHubRepo where
  name : String
deriving DecidableEq

/-- The Notion bot identity (`getBotUser`), with the nested fields the
probe dereferences; a response in which those dereferences would throw is
an `Except.error` probe outcome, caught like any other failure. -/
structure NotionBot where
  id : String
  name : String
  workspace_name : String
  workspace_id : String
  owner_email : String
  workspace_limits_truthy : Bool
deriving DecidableEq

/-- `calibrateAsana` (src/calibrator.ts lines 62-91): on success an
authenticated status carrying the user and the first workspace of the
provider list (explicit null when the list is empty); on any caught
failure a failed status carrying only the error message. -/
def calibrateAsana (probe : Except String (AsanaUser × List AsanaWorkspace))
    (now : String) : ConnectorStatus :=
  match probe with
  | .ok (user, workspaces) =>
    { status := .authenticated
      user := some (.obj [("name", .str user.name), ("email", .str user.email),
                          ("gid", .str user.gid)])
      workspace :=
        match workspaces with
        | [] => some .null
        | w :: _ => some (.obj [("name", .str w.name), ("gid", .str w.gid),
                                ("is_organization", .bool w.is_organization)])
      team := none, stats := none, bot := none, error := none
      last_verified := now }
  | .error e =>
    { status := .failed, user := none, workspace := none, team := none
      stats := none, bot := none, error := some e, last_verified := now }

/-- `calibrateLinear` (lines 96-126). -/
def calibrateLinear (probe : Except String (LinearUser × List LinearTeam))
    (now : String) : ConnectorStatus :=
  match probe with
  | .ok (user, teams) =>
    { status := .authenticated
      user := some (.obj [("name", .str user.name), ("email", .str user.email),
                          ("id", .str user.id), ("admin", .bool user.admin)])
      team :=
        match teams with
        | [] => some .null
        | t :: _ => some (.obj [("name", .str t.name), ("key", .str t.key),
                                ("id", .str t.id)])
      workspace := none, stats := none, bot := none, error := none
      last_verified := now }
  | .error e =>
    { status := .failed, user := none, workspace := none, team := none
      stats := none, bot := none, error := some e, last_verified := now }

/-- `calibrateGitHub` (lines 131-160). -/
def calibrateGitHub (probe : Except String (GitHubUser × List GitHubRepo))
    (now : String) : ConnectorStatus :=
  match probe with
  | .ok (user, _repos) =>
    { status := .authenticated
      user := some (.obj [("login", .str user.login), ("email", .str user.email),
                          ("id", .num user.id),
                          ("repos", .num (user.public_repos + user.total_private_repos))])
      stats := some (.obj [("public_repos", .num user.public_repos),
                           ("private_repos", .num user.total_private_repos)])
      workspace := none, team := none, bot := none, error := none
      last_verified := now }
  | .error e =>
    { status := .failed, user := none, workspace := none, team := none
      stats := none, bot := none, error := some e, last_verified := now }

/-- `calibrateNotion` (lines 165-195). -/
def calibrateNotion (probe : Except String NotionBot)
    (now : String) : ConnectorStatus :=
  match probe with
  | .ok bot =>
    { status := .authenticated
      workspace := some (.obj [("name", .str bot.workspace_name),
                               ("id", .str bot.workspace_id),
                               ("owner", .str bot.owner_email),
                               ("plan", .str (if bot.workspace_limits_truthy
                                              then "Plus+AI" else "Basic"))])
      bot := some (.obj [("id", .str bot.id), ("name", .str bot.name)])
      user := none, team := none, stats := none, error := none
      last_verified := now }
  | .error e =>
    { status := .failed, user := none, workspace := none, team := none
      stats := none, bot := none, error := some e, last_verified := now }

/-- `calibrate` (src/calibrator.ts lines 31-57): the four probes settle
(each to its own ok-or-caught-failure outcome), the snapshot is assembled
with one entry per connector, stamped and returned.  The probes cannot
reject the whole call: every combination of outcomes yields a snapshot. -/
def calibrate (ra : Except String (AsanaUser × List AsanaWorkspace))
    (rl : Except String (LinearUser × List LinearTeam))
    (rg : Except String (GitHubUser × List GitHubRepo))
    (rn : Except String NotionBot)
    (ts na nl ng nn : String) : CalibrationState :=
  { timestamp := ts
    connectors :=
      { asana := some (calibrateAsana ra na)
        linear := some (calibrateLinear rl nl)
        github := some (calibrateGitHub rg ng)
        notion := some (calibrateNotion rn nn) } }

/-- `exportYAML` (src/state-manager.ts lines 67-80): the secondary YAML
export runs entirely inside its own try/catch; a dump or write failure is
logged and swallowed, so the export never propagates an error. -/
def exportYAML (yamlWrite : Except String Unit) : Except String Unit :=
  match yamlWrite with
  | .ok _ => .ok ()
  | .error _ => .ok ()

/-- `save` (src/state-manager.ts lines 25-45): directory creation, then
the primary JSON write, then the YAML export; the surrounding catch logs
and rethrows, so a primary-persistence failure reaches the caller with
its error intact while the export cannot fail the call. -/
def save (mkdirRes writeJsonRes yamlWrite : Except String Unit) :
    Except String Unit :=
  match mkdirRes with
  | .error e => .error e
  | .ok _ =>
    match writeJsonRes with
    | .error e => .error e
    | .ok _ =>
      match exportYAML yamlWrite with
      | .error e => .error e
      | .ok _ => .ok ()

/-- The `status` union of `ConnectorHealth` (src/types.ts line 51). -/
inductive ConnHealthStatus where
  | healthy : ConnHealthStatus
  | failed : ConnHealthStatus
  | warning : ConnHealthStatus
deriving DecidableEq

/-- The `overall` union of `HealthStatus` (src/types.ts line 41). -/
inductive OverallHealth where
  | healthy : OverallHealth
  | degraded : OverallHealth
  | warning : OverallHealth
deriving DecidableEq

/-- `ConnectorHealth` from src/types.ts. -/
structure ConnectorHealth where
  status : ConnHealthStatus
  latency_ms : Int
  last_check : String
  error : Option String
deriving DecidableEq

/-- The `connectors` object of `HealthStatus`. -/
structure HealthConnectors where
  asana : Option ConnectorHealth
  linear : Option ConnectorHealth
  github : Option ConnectorHealth
  notion : Option ConnectorHealth
deriving DecidableEq

/-- `HealthStatus` from src/types.ts. -/
structure HealthStatus where
  timestamp : String
  overall : OverallHealth
  connectors : HealthConnectors
deriving DecidableEq

/-- The overall-health aggregation of `runHealthCheck` (health monitor
lines 79-87): `Object.values(health.connectors).map(c => c.status)` in
insertion order, then every-healthy / some-failed / otherwise. -/
def healthOverall (statuses : List ConnHealthStatus) : OverallHealth :=
  if statuses.all (fun s => s == .healthy) then .healthy
  else if statuses.any (fun s => s == .failed) then .degraded
  else .warning

/-- `runHealthCheck` (health monitor lines 56-101) restricted to its pure
snapshot assembly: the four per-connector checks settle to
`ConnectorHealth` values, the snapshot holds all four, and `overall` is
the aggregation of their statuses. -/
def runHealthCheck (ca cl cg cn : ConnectorHealth) (ts : String) : HealthStatus :=
  { timestamp := ts
    overall := healthOverall [ca.status, cl.status, cg.status, cn.status]
    connectors := { asana := some ca, linear := some cl,
                    github := some cg, notion := some cn } }

/-- The health monitor operations an operator can issue. -/
inductive MonOp where
  | start : MonOp
  | stop : MonOp
deriving DecidableEq

/-- The process-wide monitor state: the `monitoringActive` flag plus the
number of live `setInterval` schedules.  The source never stores the
interval handle, so no operation can ever clear one. -/
structure MonitorState where
  monitoringActive : Bool
  intervals : Nat
deriving DecidableEq

/-- `start` / `stop` of the health monitor (part_000 lines 25-51):
`start` is a no-op while `monitoringActive` is set, otherwise it sets the
flag and registers one new `setInterval` schedule; `stop` only clears the
flag — the schedule registered by `start` is never cancelled. -/
def monStep (s : MonitorState) : MonOp → MonitorState
  | .start =>
    if s.monitoringActive then s
    else { monitoringActive := true, intervals := s.intervals + 1 }
  | .stop => { s with monitoringActive := false }

/-- A finite sequence of `start()` / `stop()` calls applied to the fresh
monitor (`monitoringActive = false`, no schedules). -/
def monRun (ops : List MonOp) : MonitorState :=
  ops.foldl monStep { monitoringActive := false, intervals := 0 }

/-- Check cycles run by the periodic schedules over `periods` further
timer periods (no interleaved operator calls): every live interval fires
once per period and its callback runs `runHealthCheck` exactly when
`monitoringActive` is set at that moment. -/
def periodicCheckRuns (s : MonitorState) (periods : Nat) : Nat :=
  if s.monitoringActive then s.intervals * periods else 0

/-- One page response of `executeWithPagination`, classified the way the
loop body classifies it (src/enforcer.ts lines 189-200): a plain array; an
object with a truthy `nodes` array plus `pageInfo.hasNextPage`; an object
with a truthy `data` array whose `next_page` cursor is truthy or not; or
any other shape, which matches none of the three branches. -/
inductive PageResponse where
  | arrShape : List Value → PageResponse
  | nodesShape : List Value → Bool → PageResponse
  | dataShape : List Value → Bool → PageResponse
  | otherShape : PageResponse
deriving DecidableEq

/-- The items the loop body appends to `results` for one response
(nothing for an unrecognized shape). -/
def pageItems : PageResponse → List Value
  | .arrShape xs => xs
  | .nodesShape xs _ => xs
  | .dataShape xs _ => xs
  | .otherShape => []

/-- The value of `hasMore` after one loop body: false on a plain array,
`pageInfo.hasNextPage || false` on a nodes shape, `!!next_page` on a data
shape, and unchanged (still true) on an unrecognized shape. -/
def pageContinues : PageResponse → Bool
  | .arrShape _ => false
  | .nodesShape _ hasNext => hasNext
  | .dataShape _ nextTruthy => nextTruthy
  | .otherShape => true

/-- The `while (hasMore && attempts < maxPaginationAttempts)` loop of
`executeWithPagination` (lines 175-203), with `fuel` the number of
attempts still allowed and `i` the index of the next fetch in the
response sequence; `acc` is the `results` accumulator. -/
def paginationGo (pages : Nat → PageResponse) : Nat → Nat → List Value → List Value
  | 0, _, acc => acc
  | fuel + 1, i, acc =>
    let r := pages i
    let acc2 := acc ++ pageItems r
    if pageContinues r then paginationGo pages fuel (i + 1) acc2 else acc2

/-- `executeWithPagination` (src/enforcer.ts lines 169-207) over an
arbitrary sequence of tool responses. -/
def executeWithPagination (pages : Nat → PageResponse) : List Value :=
  paginationGo pages maxPaginationAttempts 0 []

/-- How many page fetches the loop performs from position `i` with `fuel`
attempts remaining. -/
def paginationFetches (pages : Nat → PageResponse) : Nat → Nat → Nat
  | 0, _ => 0
  | fuel + 1, i =>
    1 + (if pageContinues (pages i) then paginationFetches pages fuel (i + 1) else 0)

/-- The responses the loop fetches from position `i` with `fuel` attempts
remaining, in fetch order. -/
def fetchedPages (pages : Nat → PageResponse) : Nat → Nat → List PageResponse
  | 0, _ => []
  | fuel + 1, i =>
    pages i :: (if pageContinues (pages i) then fetchedPages pages fuel (i + 1) else [])

/-! ## Shared example data and helper lemmas -/

/-- A calibration snapshot holding an authenticated Asana entry whose
default workspace has gid `W1`, as `calibrateAsana` would produce it. -/
def demoAsanaState : CalibrationState :=
  { timestamp := "2025-01-01T00:00:00Z"
    connectors :=
      { asana := some
          { status := .authenticated
            user := some (.obj [("name", .str "Casey"), ("email", .str "c@x.io"),
                                ("gid", .str "U1")])
            workspace := some (.obj [("name", .str "Acme"), ("gid", .str "W1"),
                                     ("is_organization", .bool true)])
            team := none, stats := none, bot := none, error := none
            last_verified := "2025-01-01T00:00:00Z" }
        linear := none, github := none, notion := none } }

/-- The four modification strings rule 1 can record, one per injection. -/
def injectionMessages : List String :=
  ["Injected Asana workspace ID", "Injected Linear team ID",
   "Injected Notion workspace ID", "Injected GitHub owner"]

/-- The YAML export swallows every failure of its own write. -/
theorem exportYAML_ok (w : Except String Unit) : exportYAML w = Except.ok () := by
  cases w <;> rfl

/-- `buildOperationChain` on a call whose tool contains `create_issue`:
the chain is the call followed by `add_labels` exactly when `labels` is
truthy in its params. -/
theorem buildOperationChain_createIssue (tc : ToolCall)
    (h : strContains tc.tool "create_issue" = true) :
    buildOperationChain tc =
      (if truthyParam tc.params "labels" then
        [tc, ⟨"add_labels", [("labels", getParam tc.params "labels")]⟩]
      else [tc]) := by
  cases htr : truthyParam tc.params "labels" <;>
    simp [buildOperationChain, h, htr]

/-- The loop fetches at most `fuel` pages. -/
theorem paginationFetches_le (pages : Nat → PageResponse) :
    ∀ fuel i, paginationFetches pages fuel i ≤ fuel := by
  intro fuel
  induction fuel with
  | zero => intro i; simp [paginationFetches]
  | succ k ih =>
    intro i
    cases h : pageContinues (pages i) <;> simp [paginationFetches, h]
    have := ih (i + 1)
    omega

/-- The loop returns the accumulator followed by the items of the fetched
pages, in fetch order. -/
theorem paginationGo_eq (pages : Nat → PageResponse) :
    ∀ fuel i acc, paginationGo pages fuel i acc
      = acc ++ ((fetchedPages pages fuel i).map pageItems).flatten := by
  intro fuel
  induction fuel with
  | zero => intro i acc; simp [paginationGo, fetchedPages]
  | succ k ih =>
    intro i acc
    cases h : pageContinues (pages i) <;>
      simp [paginationGo, fetchedPages, h, ih]

/-! ## The claims -/

/-- C2 (code bug): the source builds `enhanced: { ...toolCall }`, a
shallow copy whose `params` is the same object as the input call's, and
`original` is the input call itself; rule 1's in-place injection therefore
mutates the input call.  At the failing input — an `asana.list_tasks`
call with empty params against a snapshot holding Asana workspace gid
`W1` — the audited `original` ends up carrying the injected
`workspace = "W1"` and no longer equals the call as it was passed in. -/
theorem enforce_mutates_original_params :
    (enforce ⟨"asana.list_tasks", []⟩ (some demoAsanaState)).original.params
      = [("workspace", Value.str "W1")]
    ∧ (enforce ⟨"asana.list_tasks", []⟩ (some demoAsanaState)).original
      ≠ ⟨"asana.list_tasks", []⟩ := by
  decide

/-- C1 counterexample: `{tool: "create_issue", params: {}}` — the claim
says `chain_operations` is absent, but rule 4 assigns it whenever the
tool matches a chaining pattern, so it is present as the one-element
chain `[enhanced]`. -/
theorem createIssue_empty_params_chain_present :
    (enforce ⟨"create_issue", []⟩ none).chain_operations
      = some [⟨"create_issue", []⟩]
    ∧ (enforce ⟨"create_issue", []⟩ none).chain_operations ≠ none := by
  decide

/-- C1 (amended): for every ToolCall whose tool contains `create_issue`
and every snapshot, `chain_operations` is present; when the (enhanced)
params hold a truthy `labels` value it is the two-element sequence
`[enhanced, add_labels-call carrying that labels value]` with first
element equal to `enhanced`, and otherwise — in particular when params
is empty — it is the one-element sequence `[enhanced]`. -/
theorem chain_operations_spec (call : ToolCall) (s : Option CalibrationState)
    (h : strContains call.tool "create_issue" = true) :
    (enforce call s).chain_operations =
      some (if truthyParam (enforce call s).enhanced.params "labels" then
              [(enforce call s).enhanced,
               ⟨"add_labels",
                [("labels", getParam (enforce call s).enhanced.params "labels")]⟩]
            else [(enforce call s).enhanced]) := by
  have hc : requiresChaining call.tool = true := by
    simp [requiresChaining, chainingPatterns, h]
  have he : strContains (enforce call s).enhanced.tool "create_issue" = true := by
    simpa [enforce] using h
  rw [← buildOperationChain_createIssue (enforce call s).enhanced he]
  simp [enforce, hc]

/-- C1 witness: the concrete labelled call from the spec example. -/
theorem chain_operations_spec_witness :
    (enforce ⟨"create_issue", [("labels", Value.arr [Value.str "bug"])]⟩ none).chain_operations
      = some [⟨"create_issue", [("labels", Value.arr [Value.str "bug"])]⟩,
              ⟨"add_labels", [("labels", Value.arr [Value.str "bug"])]⟩] :=
  (chain_operations_spec ⟨"create_issue", [("labels", Value.arr [Value.str "bug"])]⟩ none
    (by decide)).trans (by decide)

/-- C3: for every combination of per-connector probe outcomes — each of
the four probes independently succeeding or failing with a caught error —
`calibrate` yields a snapshot (it is a total function of the settled
outcomes: no probe failure can reject the call) whose connectors mapping
has an entry for every one of the four configured connectors. -/
theorem calibrate_covers_all_connectors
    (ra : Except String (AsanaUser × List AsanaWorkspace))
    (rl : Except String (LinearUser × List LinearTeam))
    (rg : Except String (GitHubUser × List GitHubRepo))
    (rn : Except String NotionBot)
    (ts na nl ng nn : String) :
    ((calibrate ra rl rg rn ts na nl ng nn).connectors.asana).isSome = true
    ∧ ((calibrate ra rl rg rn ts na nl ng nn).connectors.linear).isSome = true
    ∧ ((calibrate ra rl rg rn ts na nl ng nn).connectors.github).isSome = true
    ∧ ((calibrate ra rl rg rn ts na nl ng nn).connectors.notion).isSome = true :=
  ⟨rfl, rfl, rfl, rfl⟩

/-- The C5 invariant on one per-connector calibration result. -/
def statusErrorInvariant (cs : ConnectorStatus) : Prop :=
  (cs.status = .authenticated → cs.error = none)
  ∧ (cs.status = .failed →
      cs.error.isSome = true ∧ cs.user = none ∧ cs.workspace = none
      ∧ cs.team = none ∧ cs.stats = none ∧ cs.bot = none)

/-- C5: every ConnectorStatus produced by any of the four calibration
probes satisfies: authenticated implies the error field is absent, and
failed implies the error field is present and all identity fields (user,
workspace, team, stats, bot) are absent. -/
theorem probe_status_error_invariant
    (ra : Except String (AsanaUser × List AsanaWorkspace))
    (rl : Except String (LinearUser × List LinearTeam))
    (rg : Except String (GitHubUser × List GitHubRepo))
    (rn : Except String NotionBot)
    (na nl ng nn : String) :
    statusErrorInvariant (calibrateAsana ra na)
    ∧ statusErrorInvariant (calibrateLinear rl nl)
    ∧ statusErrorInvariant (calibrateGitHub rg ng)
    ∧ statusErrorInvariant (calibrateNotion rn nn) := by
  refine ⟨?_, ?_, ?_, ?_⟩
  · cases ra <;> simp [calibrateAsana, statusErrorInvariant]
  · cases rl <;> simp [calibrateLinear, statusErrorInvariant]
  · cases rg <;> simp [calibrateGitHub, statusErrorInvariant]
  · cases rn <;> simp [calibrateNotion, statusErrorInvariant]

/-- C4 counterexample: an `asana.list_tasks` call whose params already
contain the `workspace` identifier, but with a falsy value (the empty
string).  The claim says rule 1 records no injection and leaves the field
at its input value; the code tests `!params.workspace` (truthiness, not
presence), so it records an injection and overwrites the field. -/
theorem falsy_workspace_still_injected :
    (enforce ⟨"asana.list_tasks", [("workspace", Value.str "")]⟩
        (some demoAsanaState)).modifications.contains "Injected Asana workspace ID" = true
    ∧ (enforce ⟨"asana.list_tasks", [("workspace", Value.str "")]⟩
        (some demoAsanaState)).enhanced.params = [("workspace", Value.str "W1")] := by
  decide

/-- C4 (amended): for every ToolCall whose params contain a truthy value
for every identifier rule 1 would inject for its connector (workspace for
asana.*, teamId for linear.*, workspace_id for notion.*, owner for
github.*), and for every snapshot, enforce records no injection entry in
modifications and `enhanced.params` equals the input params — every
field, the identifier fields included, is left at its input value. -/
theorem inject_idempotent_on_truthy_params (call : ToolCall) (s : Option CalibrationState)
    (ha : strStarts call.tool "asana" = true → truthyParam call.params "workspace" = true)
    (hl : strStarts call.tool "linear" = true → truthyParam call.params "teamId" = true)
    (hn : strStarts call.tool "notion" = true → truthyParam call.params "workspace_id" = true)
    (hg : strStarts call.tool "github" = true → truthyParam call.params "owner" = true) :
    (enforce call s).enhanced.params = call.params
    ∧ (enforce call s).modifications.filter (fun m => injectionMessages.contains m) = [] := by
  have e1 : injectAsana call.tool (call.params, []) s = (call.params, []) := by
    cases h1 : strStarts call.tool "asana" with
    | false => simp [injectAsana, h1]
    | true => simp [injectAsana, h1, ha h1]
  have e2 : injectLinear call.tool (call.params, []) s = (call.params, []) := by
    cases h1 : strStarts call.tool "linear" with
    | false => simp [injectLinear, h1]
    | true => simp [injectLinear, h1, hl h1]
  have e3 : injectNotion call.tool (call.params, []) s = (call.params, []) := by
    cases h1 : strStarts call.tool "notion" with
    | false => simp [injectNotion, h1]
    | true => simp [injectNotion, h1, hn h1]
  have e4 : injectGitHub call.tool (call.params, []) s = (call.params, []) := by
    cases h1 : strStarts call.tool "github" with
    | false => simp [injectGitHub, h1]
    | true => simp [injectGitHub, h1, hg h1]
  have einj : injectIdentifiers call.tool call.params s = (call.params, []) := by
    simp [injectIdentifiers, e1, e2, e3, e4]
  have eres : resolveIdentifiers call.tool call.params = (call.params, []) := by
    simp [resolveIdentifiers, searchForId]
  constructor
  · simp [enforce, einj, eres]
  · simp only [enforce, einj, eres]
    cases requiresPagination call.tool <;> cases requiresChaining call.tool <;> decide

/-- C4 witness: a fully-specified Asana call against the demo snapshot
keeps its params and collects no injection entry. -/
theorem inject_idempotent_witness :
    (enforce ⟨"asana.list_tasks", [("workspace", Value.str "W9")]⟩
        (some demoAsanaState)).enhanced.params = [("workspace", Value.str "W9")] :=
  (inject_idempotent_on_truthy_params ⟨"asana.list_tasks", [("workspace", Value.str "W9")]⟩
    (some demoAsanaState) (by decide) (by decide) (by decide) (by decide)).1

/-- C6: for every health-check cycle snapshot, over all combinations of
the four per-connector statuses: overall is healthy iff every connector
is healthy; overall is degraded iff at least one connector failed; and
overall is warning in every remaining case. -/
theorem health_overall_aggregation (ca cl cg cn : ConnectorHealth) (ts : String) :
    ((runHealthCheck ca cl cg cn ts).overall = .healthy ↔
      (ca.status = .healthy ∧ cl.status = .healthy
        ∧ cg.status = .healthy ∧ cn.status = .healthy))
    ∧ ((runHealthCheck ca cl cg cn ts).overall = .degraded ↔
      (ca.status = .failed ∨ cl.status = .failed
        ∨ cg.status = .failed ∨ cn.status = .failed))
    ∧ ((runHealthCheck ca cl cg cn ts).overall = .warning ↔
      (¬(ca.status = .healthy ∧ cl.status = .healthy
          ∧ cg.status = .healthy ∧ cn.status = .healthy)
        ∧ ¬(ca.status = .failed ∨ cl.status = .failed
          ∨ cg.status = .failed ∨ cn.status = .failed))) := by
  obtain ⟨sa, _, _, _⟩ := ca
  obtain ⟨sl, _, _, _⟩ := cl
  obtain ⟨sg, _, _, _⟩ := cg
  obtain ⟨sn, _, _, _⟩ := cn
  cases sa <;> cases sl <;> cases sg <;> cases sn <;>
    simp [runHealthCheck, healthOverall]

/-- C7: for every ToolCall and snapshot, the result has
`enforce_pagination = true` exactly when the tool name contains one of
the configured list/search fragments, and the field is absent otherwise;
in particular `list_issues` yields true and `get_issue` yields absent. -/
theorem pagination_flag_spec (call : ToolCall) (s : Option CalibrationState) :
    ((enforce call s).enforce_pagination = some true ↔
      paginationTools.any (fun pattern => strContains call.tool pattern) = true)
    ∧ ((enforce call s).enforce_pagination = none ↔
      paginationTools.any (fun pattern => strContains call.tool pattern) = false)
    ∧ (enforce ⟨"list_issues", []⟩ none).enforce_pagination = some true
    ∧ (enforce ⟨"get_issue", []⟩ none).enforce_pagination = none := by
  refine ⟨?_, ?_, by decide, by decide⟩ <;>
  · cases hp : requiresPagination call.tool <;>
      simp [requiresPagination] at hp <;>
      simp [enforce, requiresPagination, hp]

/-- C8 (code bug): `stop()` only clears the `monitoringActive` flag and
never cancels the `setInterval` schedule (its handle is never stored), so
the operator sequence start(); stop(); start() leaves TWO live periodic
schedules with the flag set: two check cycles fire per period, against
the single schedule (one cycle per period) the claim allows. -/
theorem monitor_restart_double_interval :
    (monRun [MonOp.start, MonOp.stop, MonOp.start]).intervals = 2
    ∧ (monRun [MonOp.start, MonOp.stop, MonOp.start]).monitoringActive = true
    ∧ periodicCheckRuns (monRun [MonOp.start, MonOp.stop, MonOp.start]) 1 = 2
    ∧ periodicCheckRuns (monRun [MonOp.start]) 1 = 1 := by
  decide

/-- C9: `save` fails exactly when its primary JSON persistence (data
directory creation or the JSON write) fails, and then with that very
error; the secondary YAML export outcome never influences the result —
its failure is caught and swallowed — and when the primary steps succeed
`save` returns normally whatever the export did. -/
theorem save_error_propagation (mk wj wy : Except String Unit) :
    ((save mk wj wy = Except.ok ()) ↔ (mk = Except.ok () ∧ wj = Except.ok ()))
    ∧ (∀ wy2, save mk wj wy = save mk wj wy2)
    ∧ (∀ e, save (Except.error e) wj wy = Except.error e)
    ∧ (∀ e, save (Except.ok ()) (Except.error e) wy = Except.error e) := by
  refine ⟨?_, ?_, ?_, ?_⟩
  · cases mk <;> cases wj <;> simp [save, exportYAML_ok]
  · intro wy2; cases mk <;> cases wj <;> simp [save, exportYAML_ok]
  · intro e; simp [save]
  · intro e; simp [save]

/-- C10: for every possible sequence of tool responses the pagination
loop terminates (it is a total function of the response sequence),
performing at most `maxPaginationAttempts = 100` page fetches; a fetched
plain-array response ends the loop with that page, with no further fetch
issued; and the returned list is exactly the items of the fetched pages
concatenated in fetch order. -/
theorem executeWithPagination_spec (pages : Nat → PageResponse) :
    paginationFetches pages maxPaginationAttempts 0 ≤ maxPaginationAttempts
    ∧ executeWithPagination pages
        = ((fetchedPages pages maxPaginationAttempts 0).map pageItems).flatten
    ∧ (∀ fuel i acc xs, pages i = PageResponse.arrShape xs →
        paginationGo pages (fuel + 1) i acc = acc ++ xs
        ∧ paginationFetches pages (fuel + 1) i = 1) := by
  refine ⟨paginationFetches_le pages maxPaginationAttempts 0, ?_, ?_⟩
  · simpa [executeWithPagination] using paginationGo_eq pages maxPaginationAttempts 0 []
  · intro fuel i acc xs h
    constructor <;> simp [paginationGo, paginationFetches, h, pageItems, pageContinues]
